import Mathlib

/-!
Verification development for the local-research-agent repository.

The Python sources are shallowly embedded as executable Lean definitions:
* `research/state.py`   → `ResearchState`, `get_progress_percentage`,
  `update_step`, `mark_completed`, `mark_error`, `ResearchSession`.
* `research/graph.py`   → the step executors, the routing rule, a fueled
  runner for the compiled langgraph pipeline, and `run_research`.
* `storage/vector_store.py` → `add_session`, `get_session`,
  `search_similar`, `cleanup_old_sessions` over an explicit row list that
  models the SQLite table.

Python floats are modelled as `ℚ`; Python ints as `Nat`/`Int`;
timestamps as `Int` (ISO-format serialisation is a bijection on the
values stored, so it is modelled as the identity); raised exceptions as
`Except`.  External capabilities (the LLM provider, the web-search
backends, `json.loads`, the sentence-transformers embedding model and
the float cosine similarity, and the helper functions living in
`research/utils.py` / `research/prompts.py`, which are not part of the
sources) are universally quantified opaque parameters, so every theorem
holds for each of their behaviours.
-/

namespace LocalResearchAgent

/-! ## Python dictionaries with string values

`step_details` is a Python dict merged with `dict.update`: an existing
key keeps its position and gets the new value, a new key is appended. -/

abbrev StrDict := List (String × String)

def dictInsert (d : StrDict) (kv : String × String) : StrDict :=
  match d with
  | [] => [kv]
  | (k, v) :: rest =>
      if k = kv.1 then (k, kv.2) :: rest else (k, v) :: dictInsert rest kv

def dictUpdate (d new : StrDict) : StrDict :=
  new.foldl dictInsert d

def dictGet (d : StrDict) (k : String) : Option String :=
  (d.find? (fun kv => kv.1 = k)).map (fun kv => kv.2)

/-! ## `research/state.py` : `ResearchState` -/

/-- `ResearchState` from `research/state.py`.  Fields whose Python
default is `None` are `Option`s; `step_details` values are kept as
strings (no claim inspects them); `started_at`/`completed_at` are
abstract `Int` timestamps. -/
structure ResearchState where
  research_topic : Option String := none
  search_query : Option String := none
  web_research_results : List String := []
  sources_gathered : List String := []
  research_loop_count : Nat := 0
  running_summary : Option String := none
  current_step : String := "idle"
  step_progress : ℚ := 0
  total_steps : Nat := 5
  step_details : StrDict := []
  session_id : Option String := none
  started_at : Option Int := none
  completed_at : Option Int := none
  error_message : Option String := none
  deriving Repr, DecidableEq

def step_order : List String :=
  ["generate_query", "web_research", "summarize_sources",
   "reflect_on_summary", "finalize_summary"]

def step_weights (step : String) : ℚ :=
  if step = "generate_query" then 10
  else if step = "web_research" then 40
  else if step = "summarize_sources" then 25
  else if step = "reflect_on_summary" then 15
  else if step = "finalize_summary" then 10
  else 0

/-- `ResearchState.get_progress_percentage`.  `step_order.indexOf?`
models `list.index` raising `ValueError` when absent; Python's float
arithmetic is carried out in `ℚ` (all constants involved are exact). -/
def get_progress_percentage (s : ResearchState) : ℚ :=
  if s.current_step = "completed" then 100
  else if s.current_step = "idle" then 0
  else
    match step_order.indexOf? s.current_step with
    | none => 100
    | some idx =>
        let completed_progress : ℚ :=
          ((step_order.take idx).map step_weights).sum
        let current_step_progress : ℚ :=
          step_weights s.current_step * s.step_progress
        let total_progress : ℚ := completed_progress + current_step_progress
        let total_progress : ℚ :=
          if s.current_step = "web_research" ∨
             s.current_step = "summarize_sources" ∨
             s.current_step = "reflect_on_summary" then
            let loop_factor : ℚ :=
              min 1 ((s.research_loop_count : ℚ) / (max 1 s.total_steps : ℕ))
            if s.current_step = "web_research" then
              10 + 40 * loop_factor + current_step_progress
            else total_progress
          else total_progress
        min 100 total_progress

/-- `ResearchState.update_step`: sets the current step and its progress,
and merges (never replaces) the details dict. -/
def update_step (s : ResearchState) (step_name : String) (progress : ℚ)
    (details : StrDict) : ResearchState :=
  { s with
    current_step := step_name
    step_progress := progress
    step_details := if details = [] then s.step_details
                    else dictUpdate s.step_details details }

/-- `ResearchState.mark_completed` (the wall-clock timestamp is an
explicit argument). -/
def mark_completed (s : ResearchState) (now : Int) : ResearchState :=
  { s with
    completed_at := some now
    current_step := "completed"
    step_progress := 1 }

/-- `ResearchState.mark_error`. -/
def mark_error (s : ResearchState) (msg : String) : ResearchState :=
  { s with
    error_message := some msg
    current_step := "error" }

/-! ## JSON values and Python exceptions

`json.loads` itself is Python library code, modelled as an opaque
`String → Option JValue` capability (`none` is a `JSONDecodeError`);
subscripting and truthiness of the parsed value follow Python. -/

inductive JValue where
  | null : JValue
  | bool (b : Bool) : JValue
  | num (n : Int) : JValue
  | str (s : String) : JValue
  | arr (elems : List JValue) : JValue
  | obj (fields : List (String × JValue)) : JValue

inductive PyErr where
  | jsonDecodeError : PyErr
  | keyError : PyErr
  | typeError : PyErr
  | indexError : PyErr
  | valueError (msg : String) : PyErr
  | exception (msg : String) : PyErr
  deriving Repr, DecidableEq

/-- Model of Python `str(e)` for the exceptions above. -/
def pyErrMsg : PyErr → String
  | .jsonDecodeError => "JSONDecodeError"
  | .keyError => "KeyError: query"
  | .typeError => "TypeError"
  | .indexError => "IndexError"
  | .valueError msg => msg
  | .exception msg => msg

/-- Python truthiness of a parsed JSON value. -/
def jTruthy : JValue → Bool
  | .null => false
  | .bool b => b
  | .num n => n != 0
  | .str s => s != ""
  | .arr elems => !elems.isEmpty
  | .obj fields => !fields.isEmpty

/-- Coercion of a JSON value assigned into a string-typed slot.  The
runs exercised by the claims only ever store `.str` values; the other
cases collapse to a printed placeholder. -/
def jAsString : JValue → String
  | .null => "None"
  | .bool true => "True"
  | .bool false => "False"
  | .num n => toString n
  | .str s => s
  | .arr _ => "[..]"
  | .obj _ => "[dict]"

/-- Python formatting of an `Optional[str]` into an f-string slot. -/
def pyStr (o : Option String) : String :=
  match o with
  | some s => s
  | none => "None"

/-! ## `research/graph.py` : configuration, capabilities, executors -/

/-- The fields of `config/settings.py` `ResearchConfig` consumed by the
research graph (`ge=1` on `max_web_research_loops` is a hypothesis of
the theorems that need it). -/
structure ResearchConfig where
  max_web_research_loops : Nat := 3
  search_api : String := "duckduckgo"
  fetch_full_page : Bool := true
  strip_thinking_tokens : Bool := true
  deriving Repr, DecidableEq

/-- One entry of the `results` list returned by a search backend; the
`url` key may be absent. -/
structure SearchResultItem where
  url : Option String := none
  title : String := ""
  content : String := ""
  deriving Repr, DecidableEq

/-- The dict returned by a search backend; the `results` key may be
absent. -/
structure SearchResults where
  results : Option (List SearchResultItem) := none
  deriving Repr, DecidableEq

/-- Pure helpers of the repository that live in `research/utils.py` and
`research/prompts.py` (files not present under `src/`), plus `json.loads`
and the wall clock, kept as opaque parameters: every theorem quantifies
over them. -/
structure Env where
  current_date : String
  now : Int
  query_writer_instructions : String → String → String
  summarizer_instructions : String
  reflection_instructions : String → String
  strip_thinking_tokens : String → String
  deduplicate_and_format_sources : SearchResults → Nat → Bool → String
  json_loads : String → Option JValue

/-- External capabilities: the LLM provider (`invoke` over (role,
content) messages with a `json_mode` flag) and the four search
backends dispatched in `_web_research`. -/
structure Caps where
  llm_invoke : List (String × String) → Bool → Except PyErr String
  tavily_search : String → Bool → Nat → Except PyErr SearchResults
  perplexity_search : String → Nat → Except PyErr SearchResults
  duckduckgo_search : String → Nat → Bool → Except PyErr SearchResults
  searxng_search : String → Nat → Bool → Except PyErr SearchResults

/-- Uniform model of the `try/except` wrapper of every step executor:
on success the body yields the mutated state and the returned delta; on
failure the executor calls `mark_error`, reports the `error` step, and
re-raises (`Except.error`).  `state` is the state as already mutated by
the progress update at the top of the step. -/
def node_result {d : Type} (state : ResearchState) (pre : String)
    (body : Except PyErr (ResearchState × d)) :
    ResearchState × Except PyErr d :=
  match body with
  | .ok sd => (sd.1, .ok sd.2)
  | .error e =>
    (update_step (mark_error state (pre ++ pyErrMsg e)) "error" 0
      [("error", pyErrMsg e)], .error e)

/-- The success exit of `_generate_query`: record the final progress
update (query and rationale land in `step_details`) and return the
`search_query` delta. -/
def gen_finish (state : ResearchState) (qr : String × String) :
    ResearchState × String :=
  (update_step state "generate_query" 1
    [("status", "Query generated successfully"),
     ("query", qr.1), ("rationale", qr.2)], qr.1)

/-- The fallback of `_generate_query` when JSON parsing fails: the raw
(optionally thinking-token-stripped) response with a default
rationale. -/
def gen_fallback (env : Env) (cfg : ResearchConfig) (content : String) :
    String × String :=
  (if cfg.strip_thinking_tokens then env.strip_thinking_tokens content
   else content, "Generated query")

/-- The `try` body of `_generate_query`: invoke the LLM in JSON mode,
parse the response, and fall back on `JSONDecodeError` (parse failure)
or `KeyError` (object without a `query` key); a `TypeError` from
subscripting a parsed non-dict value is not caught and propagates. -/
def generate_query_body (env : Env) (caps : Caps) (cfg : ResearchConfig)
    (state : ResearchState) : Except PyErr (ResearchState × String) :=
  match caps.llm_invoke
      [("system", env.query_writer_instructions env.current_date
          (pyStr state.research_topic)),
       ("human", "Generate a query for web search:")] true with
  | .error e => .error e
  | .ok content =>
    match env.json_loads content with
    | none => .ok (gen_finish state (gen_fallback env cfg content))
    | some (.obj fields) =>
      match fields.find? (fun kv => kv.1 = "query") with
      | none => .ok (gen_finish state (gen_fallback env cfg content))
      | some kv =>
        .ok (gen_finish state (jAsString kv.2,
          (((fields.find? (fun kv2 => kv2.1 = "rationale")).map
             (fun kv2 => jAsString kv2.2)).getD "")))
    | some _ => .error .typeError

/-- `StreamlitResearchGraph._generate_query`.  The returned `Except` is
the state delta (`search_query`) on success and the re-raised exception
on failure. -/
def generate_query_node (env : Env) (caps : Caps) (cfg : ResearchConfig)
    (state : ResearchState) : ResearchState × Except PyErr String :=
  let state := update_step state "generate_query" (1/10)
    [("status", "Generating search query...")]
  node_result state "Query generation failed: "
    (generate_query_body env caps cfg state)

/-- The partial state update returned by `_web_research`; langgraph
merges the two list fields by concatenation (`operator.add`) and
replaces `research_loop_count`. -/
structure WebResearchDelta where
  sources_gathered : List String
  research_loop_count : Nat
  web_research_results : List String
  deriving Repr, DecidableEq

/-- The search-API dispatch of `_web_research`; an unrecognised
`search_api` raises `ValueError`. -/
def web_search_dispatch (caps : Caps) (cfg : ResearchConfig)
    (query : String) (research_loop_count : Nat) : Except PyErr SearchResults :=
  if cfg.search_api = "tavily" then
    caps.tavily_search query cfg.fetch_full_page 3
  else if cfg.search_api = "perplexity" then
    caps.perplexity_search query research_loop_count
  else if cfg.search_api = "duckduckgo" then
    caps.duckduckgo_search query 3 cfg.fetch_full_page
  else if cfg.search_api = "searxng" then
    caps.searxng_search query 3 cfg.fetch_full_page
  else .error (.valueError ("Unsupported search API: " ++ cfg.search_api))

/-- The `try` body of `_web_research`. -/
def web_research_body (env : Env) (caps : Caps) (cfg : ResearchConfig)
    (state : ResearchState) : Except PyErr (ResearchState × WebResearchDelta) :=
  match web_search_dispatch caps cfg (pyStr state.search_query)
      state.research_loop_count with
  | .error e => .error e
  | .ok search_results =>
    let search_str :=
      env.deduplicate_and_format_sources search_results 1000 cfg.fetch_full_page
    let sources_list : List String :=
      match search_results.results with
      | none => []
      | some rs => rs.filterMap (fun r => r.url)
    let state2 := update_step state "web_research" 1
      [("status", "Found " ++ toString sources_list.length ++ " sources"),
       ("sources_count", toString sources_list.length),
       ("search_api", cfg.search_api)]
    .ok (state2,
      { sources_gathered := sources_list
        research_loop_count := state.research_loop_count + 1
        web_research_results := [search_str] })

/-- `StreamlitResearchGraph._web_research`. -/
def web_research_node (env : Env) (caps : Caps) (cfg : ResearchConfig)
    (state : ResearchState) : ResearchState × Except PyErr WebResearchDelta :=
  let state := update_step state "web_research" (1/10)
    [("status", "Searching web (loop " ++ toString (state.research_loop_count + 1)
        ++ "/" ++ toString cfg.max_web_research_loops ++ ")..."),
     ("query", pyStr state.search_query)]
  node_result state "Web research failed: "
    (web_research_body env caps cfg state)

/-- Merge of a `_web_research` delta into the langgraph state:
`operator.add` on the two list channels, replacement elsewhere. -/
def apply_web_delta (s : ResearchState) (d : WebResearchDelta) : ResearchState :=
  { s with
    sources_gathered := s.sources_gathered ++ d.sources_gathered
    research_loop_count := d.research_loop_count
    web_research_results := s.web_research_results ++ d.web_research_results }

/-- The human message of `_summarize_sources`: extend-summary form when
the running summary is truthy, create-summary form otherwise. -/
def summarize_human_message (state : ResearchState)
    (most_recent_research : String) : String :=
  if (match state.running_summary with
      | some s => s != ""
      | none => false) then
    "<Existing Summary>\n" ++ pyStr state.running_summary
      ++ "\n</Existing Summary>\n\n<New Context>\n" ++ most_recent_research
      ++ "\n</New Context>\nUpdate the Existing Summary with the New Context on this topic:\n<User Input>\n"
      ++ pyStr state.research_topic ++ "\n</User Input>\n\n"
  else
    "<Context>\n" ++ most_recent_research
      ++ "\n</Context>\nCreate a Summary using the Context on this topic:\n<User Input>\n"
      ++ pyStr state.research_topic ++ "\n</User Input>\n\n"

/-- The success exit of `_summarize_sources` for the (optionally
stripped) new running summary. -/
def summarize_finish (state : ResearchState) (running_summary : String) :
    ResearchState × String :=
  (update_step state "summarize_sources" 1
    [("status", "Summary updated"),
     ("summary_length", toString running_summary.length)], running_summary)

/-- The `try` body of `_summarize_sources`; reading
`web_research_results[-1]` from an empty list raises `IndexError`. -/
def summarize_sources_body (env : Env) (caps : Caps) (cfg : ResearchConfig)
    (state : ResearchState) : Except PyErr (ResearchState × String) :=
  match state.web_research_results.getLast? with
  | none => .error .indexError
  | some most_recent_research =>
    match caps.llm_invoke
        [("system", env.summarizer_instructions),
         ("human", summarize_human_message state most_recent_research)]
        false with
    | .error e => .error e
    | .ok content =>
      .ok (summarize_finish state
        (if cfg.strip_thinking_tokens then env.strip_thinking_tokens content
         else content))

/-- `StreamlitResearchGraph._summarize_sources`. -/
def summarize_sources_node (env : Env) (caps : Caps) (cfg : ResearchConfig)
    (state : ResearchState) : ResearchState × Except PyErr String :=
  let state := update_step state "summarize_sources" (1/10)
    [("status", "Analyzing and summarizing sources...")]
  node_result state "Summarization failed: "
    (summarize_sources_body env caps cfg state)

/-- The `knowledge_gap` read by `_reflect_on_summary`
(`.get(..., \x27\x27)` on the parsed dict). -/
def reflect_kg (fields : List (String × JValue)) : String :=
  (((fields.find? (fun kv => kv.1 = "knowledge_gap")).map
     (fun kv => jAsString kv.2)).getD "")

/-- The success exit of `_reflect_on_summary` for the follow-up query
and knowledge gap. -/
def reflect_finish (state : ResearchState) (fq kg : String) :
    ResearchState × String :=
  (update_step state "reflect_on_summary" 1
    [("status", "Knowledge gap identified"),
     ("knowledge_gap", kg), ("follow_up_query", fq)], fq)

/-- The `try` body of `_reflect_on_summary`.  The inner `except` clause
catches `JSONDecodeError`, `KeyError` and `AttributeError`, so a parsed
non-dict value (whose `.get` raises `AttributeError`) also takes the
generic follow-up, as does a falsy `follow_up_query` value. -/
def reflect_on_summary_body (env : Env) (caps : Caps) (cfg : ResearchConfig)
    (state : ResearchState) : Except PyErr (ResearchState × String) :=
  match caps.llm_invoke
      [("system", env.reflection_instructions (pyStr state.research_topic)),
       ("human", "Reflect on our existing knowledge:\n===\n"
          ++ pyStr state.running_summary
          ++ "\n===\nAnd now identify a knowledge gap and generate a follow-up web search query:")]
      true with
  | .error e => .error e
  | .ok content =>
    match env.json_loads content with
    | some (.obj fields) =>
      match fields.find? (fun kv => kv.1 = "follow_up_query") with
      | some kv =>
        if jTruthy kv.2 then
          .ok (reflect_finish state (jAsString kv.2) (reflect_kg fields))
        else
          .ok (reflect_finish state
            ("Tell me more about " ++ pyStr state.research_topic)
            (reflect_kg fields))
      | none =>
        .ok (reflect_finish state
          ("Tell me more about " ++ pyStr state.research_topic)
          (reflect_kg fields))
    | _ =>
      .ok (reflect_finish state
        ("Tell me more about " ++ pyStr state.research_topic)
        "Additional information needed")

/-- `StreamlitResearchGraph._reflect_on_summary`. -/
def reflect_on_summary_node (env : Env) (caps : Caps) (cfg : ResearchConfig)
    (state : ResearchState) : ResearchState × Except PyErr String :=
  let state := update_step state "reflect_on_summary" (1/10)
    [("status", "Identifying knowledge gaps...")]
  node_result state "Reflection failed: "
    (reflect_on_summary_body env caps cfg state)

/-- Splitting a character list at every separator occurrence; the model
of Python `str.split(sep)` for a one-character separator (written
structurally so that it evaluates inside the kernel). -/
def split_chars (sep : Char) : List Char → List (List Char)
  | [] => [[]]
  | c :: cs =>
    match split_chars sep cs with
    | [] => [[]]
    | r :: rs => if c = sep then [] :: r :: rs else (c :: r) :: rs

/-- Python `source.split(chr(10))`. -/
def py_split_lines (s : String) : List String :=
  (split_chars (Char.ofNat 10) s.data).map String.mk

/-- Python `line.strip()`: whitespace removed from both ends (for the
ASCII whitespace the sources contain this agrees with Python). -/
def py_strip (s : String) : String :=
  String.mk
    (((s.data.dropWhile Char.isWhitespace).reverse.dropWhile
      Char.isWhitespace).reverse)

/-- Structural prefix test on character lists; the model of Python
`str.startswith` (written so that it evaluates inside the kernel). -/
def starts_with_chars : List Char → List Char → Bool
  | _, [] => true
  | [], _ :: _ => false
  | c :: cs, p :: ps => c = p && starts_with_chars cs ps

/-- Python `source.startswith("http")` and friends. -/
def py_startswith (s pre : String) : Bool :=
  starts_with_chars s.data pre.data

/-- The per-line branch of the deduplication loop of
`_finalize_summary`: keep a line whose `strip()` is non-empty and that
is not in `seen_sources`.  The accumulator carries the `seen_sources`
set (as a list) and the `unique_sources` output in order. -/
def dedup_line_step (acc : List String × List String) (line : String) :
    List String × List String :=
  if py_strip line != "" && !(acc.1.contains line) then
    (line :: acc.1, acc.2 ++ [line])
  else acc

/-- One iteration of the deduplication loop of `_finalize_summary`: an
item starting with `http` that is not yet seen is kept whole; every
other item is split on newlines and deduplicated line by line. -/
def dedup_step (acc : List String × List String) (source : String) :
    List String × List String :=
  if py_startswith source "http" && !(acc.1.contains source) then
    (source :: acc.1, acc.2 ++ [source])
  else
    (py_split_lines source).foldl dedup_line_step acc

/-- The source-deduplication pass of `_finalize_summary`. -/
def dedup_sources (sources : List String) : List String :=
  (sources.foldl dedup_step ([], [])).2

/-- Numbering and joining of the deduplicated sources. -/
def numbered_sources_block (unique_sources : List String) : String :=
  String.intercalate "\n"
    ((List.range unique_sources.length).zipWith
      (fun i source => toString (i + 1) ++ ". " ++ source) unique_sources)

/-- `StreamlitResearchGraph._finalize_summary`. -/
def finalize_summary_node (env : Env) (caps : Caps) (cfg : ResearchConfig)
    (state : ResearchState) : ResearchState × Except PyErr String :=
  let state := update_step state "finalize_summary" (1/2)
    [("status", "Finalizing research report...")]
  let unique_sources := dedup_sources state.sources_gathered
  let final_summary :=
    if !unique_sources.isEmpty then
      "## Summary\n" ++ pyStr state.running_summary ++ "\n\n### Sources:\n"
        ++ numbered_sources_block unique_sources
    else
      "## Summary\n" ++ pyStr state.running_summary
  let state := mark_completed state env.now
  let state := update_step state "completed" 1
    [("status", "Research completed successfully"),
     ("total_sources", toString unique_sources.length),
     ("summary_length", toString final_summary.length)]
  (state, .ok final_summary)

/-- `StreamlitResearchGraph._route_research`: continue while
`research_loop_count <= max_web_research_loops`. -/
def route_research (cfg : ResearchConfig) (state : ResearchState) : String :=
  if state.research_loop_count ≤ cfg.max_web_research_loops then "web_research"
  else "finalize_summary"

/-! ## Pipeline runner

The compiled langgraph pipeline is
`generate_query → (web_research → summarize_sources → reflect_on_summary
→ route)* → finalize_summary`.  `run_cycle` is one loop body;
`run_loop` iterates it on explicit fuel (`invoke_graph` supplies
`max_web_research_loops + 2`, which is never exhausted because the loop
count strictly increases each cycle); the `Nat` component counts
completed web-research passes. -/

def run_cycle (env : Env) (caps : Caps) (cfg : ResearchConfig)
    (state : ResearchState) (passes : Nat) :
    ResearchState × Nat × Except PyErr Unit :=
  match web_research_node env caps cfg state with
  | (state, .error e) => (state, passes, .error e)
  | (state, .ok delta) =>
    match summarize_sources_node env caps cfg (apply_web_delta state delta) with
    | (state, .error e) => (state, passes + 1, .error e)
    | (state, .ok running_summary) =>
      match reflect_on_summary_node env caps cfg
          { state with running_summary := some running_summary } with
      | (state, .error e) => (state, passes + 1, .error e)
      | (state, .ok follow_up_query) =>
        ({ state with search_query := some follow_up_query },
         passes + 1, .ok ())

def run_loop (env : Env) (caps : Caps) (cfg : ResearchConfig) :
    Nat → ResearchState → Nat → ResearchState × Nat × Except PyErr Unit
  | 0, state, passes => (state, passes, .error (.exception "recursion limit"))
  | fuel + 1, state, passes =>
    match run_cycle env caps cfg state passes with
    | (state, passes, .error e) => (state, passes, .error e)
    | (state, passes, .ok _) =>
      if route_research cfg state = "web_research" then
        run_loop env caps cfg fuel state passes
      else
        match finalize_summary_node env caps cfg state with
        | (state, .error e) => (state, passes, .error e)
        | (state, .ok final_summary) =>
          ({ state with running_summary := some final_summary }, passes, .ok ())

/-- `self.graph.invoke` on the input dict: langgraph builds the initial
state from the input schema (every other field at its default) and runs
the pipeline to a terminal node. -/
def invoke_graph (env : Env) (caps : Caps) (cfg : ResearchConfig)
    (topic : String) : ResearchState × Nat × Except PyErr Unit :=
  match generate_query_node env caps cfg { research_topic := some topic } with
  | (state, .error e) => (state, 0, .error e)
  | (state, .ok search_query) =>
    run_loop env caps cfg (cfg.max_web_research_loops + 2)
      { state with search_query := some search_query } 0

/-- `StreamlitResearchGraph.run_research`: allocates a fresh state (the
session id and the two wall-clock readings are explicit arguments),
invokes the graph, copies `running_summary` out of the result
(defaulting to the empty string) and marks completion; on failure it
marks the fresh state with the error and re-raises. -/
def run_research (env : Env) (caps : Caps) (cfg : ResearchConfig)
    (topic session_id : String) (started : Int) :
    ResearchState × Except PyErr Unit :=
  match invoke_graph env caps cfg topic with
  | (result, _passes, .ok _) =>
    (mark_completed
      { research_topic := some topic
        session_id := some session_id
        started_at := some started
        total_steps := cfg.max_web_research_loops
        running_summary := some (result.running_summary.getD "") } env.now,
     .ok ())
  | (_result, _passes, .error e) =>
    (mark_error
      { research_topic := some topic
        session_id := some session_id
        started_at := some started
        total_steps := cfg.max_web_research_loops } (pyErrMsg e),
     .error e)

/-! ## Stable descending sort

Python `list.sort(key=..., reverse=True)` is a stable descending sort;
SQLite `ORDER BY created_at DESC` is a descending sort whose order on
equal keys the model fixes to the stable one.  `insert_by_desc` places
`x` before the first element whose key is not larger, so earlier list
elements stay before later ones with equal keys. -/

def insert_by_desc {α β : Type} [LinearOrder β] (key : α → β) (x : α) :
    List α → List α
  | [] => [x]
  | y :: ys =>
      if key x < key y then y :: insert_by_desc key x ys else x :: y :: ys

def sort_by_desc {α β : Type} [LinearOrder β] (key : α → β) :
    List α → List α
  | [] => []
  | x :: xs => insert_by_desc key x (sort_by_desc key xs)

/-! ## `research/state.py` : `ResearchSession` and
`storage/vector_store.py` : `VectorStore`

The SQLite table is an explicit list of rows in rowid (insertion)
order.  ISO-format timestamps and the JSON encoding of `sources` /
`config` are bijective on the stored values, so serialisation is the
identity; embedding vectors are `List ℚ` (`float32` entries);
`config` is an opaque key-value snapshot.  The embedding model
(`SentenceTransformer.encode`) and the float cosine similarity
(`sklearn.metrics.pairwise.cosine_similarity`) are opaque parameters. -/

structure ResearchSession where
  id : String
  topic : String
  summary : String
  sources : List String
  created_at : Int
  completed_at : Option Int := none
  config : Option (List (String × String)) := none
  embedding : Option (List ℚ) := none
  deriving Repr, DecidableEq

/-- One row of the `research_sessions` table (`id` is the primary key,
so a well-formed table has pairwise distinct ids). -/
structure SessionRow where
  id : String
  topic : String
  summary : String
  sources : List String
  created_at : Int
  completed_at : Option Int := none
  config : Option (List (String × String)) := none
  embedding : Option (List ℚ) := none
  deriving Repr, DecidableEq

/-- Reading a session back from a row: the `SELECT` lists of
`get_session`, `get_recent_sessions` and `search_similar` all omit the
`embedding` column, and `config=json.loads(row) if row else None`. -/
def row_to_session (r : SessionRow) : ResearchSession :=
  { id := r.id
    topic := r.topic
    summary := r.summary
    sources := r.sources
    created_at := r.created_at
    completed_at := r.completed_at
    config := r.config
    embedding := none }

/-- Python `json.dumps(session.config) if session.config else None`:
an absent or empty (falsy) config dict is stored as `NULL`. -/
def py_config_store (config : Option (List (String × String))) :
    Option (List (String × String)) :=
  match config with
  | some c => if c.isEmpty then none else some c
  | none => none

/-- `VectorStore.add_session` (success path; storage failures are
environment failures outside the model).  The embedding is computed
from `topic + "\n\n" + summary`, the `embedding` field of the given
session is never read, and `INSERT OR REPLACE` deletes any row with the
same id and appends the new row. -/
def add_session (embed : String → List ℚ) (db : List SessionRow)
    (session : ResearchSession) : List SessionRow × Bool :=
  let text_to_embed := session.topic ++ "\n\n" ++ session.summary
  let embedding := embed text_to_embed
  let row : SessionRow :=
    { id := session.id
      topic := session.topic
      summary := session.summary
      sources := session.sources
      created_at := session.created_at
      completed_at := session.completed_at
      config := py_config_store session.config
      embedding := some embedding }
  (db.filter (fun r => r.id ≠ session.id) ++ [row], true)

/-- `VectorStore.get_session`. -/
def get_session (db : List SessionRow) (session_id : String) :
    Option ResearchSession :=
  (db.find? (fun r => r.id = session_id)).map row_to_session

/-- One scan iteration of `VectorStore.search_similar`: append the row
with its score when the cosine similarity reaches the threshold. -/
def sim_step (cosine_similarity : List ℚ → List ℚ → ℚ)
    (query_embedding : List ℚ) (threshold : ℚ)
    (results : List (ResearchSession × ℚ)) (r : SessionRow) :
    List (ResearchSession × ℚ) :=
  let similarity := cosine_similarity query_embedding (r.embedding.getD [])
  if threshold ≤ similarity then results ++ [(row_to_session r, similarity)]
  else results

/-- The `results` list of `VectorStore.search_similar` before sorting:
rows with an embedding are scanned in `created_at DESC` order and each
row whose cosine similarity reaches the threshold is appended with its
score. -/
def similarity_candidates (cosine_similarity : List ℚ → List ℚ → ℚ)
    (query_embedding : List ℚ) (db : List SessionRow) (threshold : ℚ) :
    List (ResearchSession × ℚ) :=
  let scan :=
    sort_by_desc (fun r => r.created_at)
      (db.filter (fun r => r.embedding.isSome))
  scan.foldl (sim_step cosine_similarity query_embedding threshold) []

/-- `VectorStore.search_similar`: embed the query, score every stored
embedding, keep the scores reaching the threshold, stable-sort them
descending and truncate to `limit`. -/
def search_similar (cosine_similarity : List ℚ → List ℚ → ℚ)
    (embed : String → List ℚ) (db : List SessionRow)
    (query : String) (limit : Nat) (threshold : ℚ) :
    List (ResearchSession × ℚ) :=
  let query_embedding := embed query
  (sort_by_desc (fun p => p.2)
    (similarity_candidates cosine_similarity query_embedding db threshold)).take
    limit

/-- `VectorStore.cleanup_old_sessions`: delete every row whose id is
not among the ids of the `keep_recent` most recently created rows, and
return the number of deleted rows. -/
def cleanup_old_sessions (db : List SessionRow) (keep_recent : Nat) :
    List SessionRow × Nat :=
  let keep_ids :=
    ((sort_by_desc (fun r => r.created_at) db).take keep_recent).map
      (fun r => r.id)
  let remaining := db.filter (fun r => keep_ids.contains r.id)
  (remaining, db.length - remaining.length)

/-! ## Helper lemmas on the state mutators -/

@[simp] theorem update_step_current_step (s : ResearchState) (n : String)
    (p : ℚ) (d : StrDict) : (update_step s n p d).current_step = n := rfl

@[simp] theorem update_step_research_loop_count (s : ResearchState)
    (n : String) (p : ℚ) (d : StrDict) :
    (update_step s n p d).research_loop_count = s.research_loop_count := rfl

@[simp] theorem update_step_error_message (s : ResearchState) (n : String)
    (p : ℚ) (d : StrDict) :
    (update_step s n p d).error_message = s.error_message := rfl

@[simp] theorem update_step_search_query (s : ResearchState) (n : String)
    (p : ℚ) (d : StrDict) :
    (update_step s n p d).search_query = s.search_query := rfl

@[simp] theorem update_step_research_topic (s : ResearchState) (n : String)
    (p : ℚ) (d : StrDict) :
    (update_step s n p d).research_topic = s.research_topic := rfl

@[simp] theorem update_step_web_research_results (s : ResearchState)
    (n : String) (p : ℚ) (d : StrDict) :
    (update_step s n p d).web_research_results = s.web_research_results := rfl

@[simp] theorem update_step_running_summary (s : ResearchState) (n : String)
    (p : ℚ) (d : StrDict) :
    (update_step s n p d).running_summary = s.running_summary := rfl

@[simp] theorem mark_error_current_step (s : ResearchState) (m : String) :
    (mark_error s m).current_step = "error" := rfl

@[simp] theorem mark_error_error_message (s : ResearchState) (m : String) :
    (mark_error s m).error_message = some m := rfl

@[simp] theorem mark_completed_current_step (s : ResearchState) (t : Int) :
    (mark_completed s t).current_step = "completed" := rfl

@[simp] theorem mark_completed_research_loop_count (s : ResearchState)
    (t : Int) : (mark_completed s t).research_loop_count = s.research_loop_count := rfl

@[simp] theorem apply_web_delta_research_loop_count (s : ResearchState)
    (d : WebResearchDelta) :
    (apply_web_delta s d).research_loop_count = d.research_loop_count := rfl

/-! ## C9 : progress at the terminal and unknown steps -/

/-- C9: `get_progress_percentage` returns exactly 100 when
`current_step = completed`, exactly 0 when `current_step = idle`, and
100 for every step outside the fixed five-step order (the clauses apply
in this order, as in the source: `completed` and `idle` are themselves
outside the order but are tested first). -/
theorem progress_terminal_values (s : ResearchState) :
    (s.current_step = "completed" → get_progress_percentage s = 100) ∧
    (s.current_step = "idle" → get_progress_percentage s = 0) ∧
    (s.current_step ∉ step_order → s.current_step ≠ "completed" →
      s.current_step ≠ "idle" → get_progress_percentage s = 100) := by
  refine ⟨fun h => ?_, fun h => ?_, fun hmem h1 h2 => ?_⟩
  · simp [get_progress_percentage, h]
  · simp [get_progress_percentage, h]
  · have hidx : step_order.indexOf? s.current_step = none := by
      rw [List.indexOf?_eq_none_iff]
      intro x hx
      simp only [beq_iff_eq]
      intro hxe
      exact hmem (by rwa [hxe] at hx)
    unfold get_progress_percentage
    rw [if_neg h1, if_neg h2, hidx]

/-- Witness for C9 at the three concrete steps. -/
theorem progress_terminal_values_witness :
    get_progress_percentage { current_step := "completed" } = 100 ∧
    get_progress_percentage { current_step := "idle" } = 0 ∧
    get_progress_percentage { current_step := "error" } = 100 := by
  refine ⟨(progress_terminal_values _).1 rfl, (progress_terminal_values _).2.1 rfl,
    (progress_terminal_values _).2.2 (by decide) (by decide) (by decide)⟩

/-! ## C2 : progress while in `web_research` -/

/-- The formula the claim asserts for `current_step = web_research`:
the generate-query weight plus the web-research weight scaled by the
loop factor, with no `step_progress` contribution.  In the state
created by `run_research`, `total_steps` holds `max_web_research_loops`,
so it plays the role of the claim's `max_loops`. -/
def claimed_web_research_progress (s : ResearchState) : ℚ :=
  10 + 40 * min 1 ((s.research_loop_count : ℚ) / (max 1 s.total_steps : ℕ))

/-- A state mid-way through the second web-research pass of a
one-loop-configured run. -/
def c2_state : ResearchState :=
  { current_step := "web_research", step_progress := 1/2,
    research_loop_count := 1, total_steps := 1 }

/-- C2 as stated is false: the code adds the
`weight * step_progress` term on top of the loop-scaled term, so
`step_progress` does contribute while `current_step = web_research`. -/
theorem web_research_progress_claim_counterexample :
    get_progress_percentage c2_state = 70 ∧
    claimed_web_research_progress c2_state = 50 ∧
    get_progress_percentage c2_state ≠ claimed_web_research_progress c2_state := by
  have h1 : ("web_research":String) ≠ "completed" := by decide
  have h2 : ("web_research":String) ≠ "idle" := by decide
  have h3 : ("generate_query":String) ≠ "web_research" := by decide
  have h4 : ("web_research":String) ≠ "generate_query" := by decide
  have e1 : get_progress_percentage c2_state = 70 := by
    norm_num [get_progress_percentage, c2_state, step_order, step_weights,
      min_def, List.indexOf?, h1, h2, h3, h4]
  have e2 : claimed_web_research_progress c2_state = 50 := by
    norm_num [claimed_web_research_progress, c2_state, min_def]
  refine ⟨e1, e2, by rw [e1, e2]; norm_num⟩

/-- C2 amended: while `current_step = web_research` the percentage is
`min 100 (10 + 40 * min 1 (loop_count / max 1 total_steps)
+ 40 * step_progress)` — the loop-scaled term replaces the earlier-step
accumulation, but the generic `weight * step_progress` term is still
added, and the result is capped at 100. -/
theorem web_research_progress_formula (s : ResearchState)
    (h : s.current_step = "web_research") :
    get_progress_percentage s =
      min 100 (10 + 40 * min 1 ((s.research_loop_count : ℚ) / (max 1 s.total_steps : ℕ))
        + 40 * s.step_progress) := by
  have h1 : ("web_research":String) ≠ "completed" := by decide
  have h2 : ("web_research":String) ≠ "idle" := by decide
  have h3 : ("generate_query":String) ≠ "web_research" := by decide
  have h4 : ("web_research":String) ≠ "generate_query" := by decide
  unfold get_progress_percentage
  rw [h]
  simp [h1, h2, h3, h4, step_order, step_weights, List.indexOf?]

/-- Witness for C2 (amended) at `c2_state`. -/
theorem web_research_progress_formula_witness :
    get_progress_percentage c2_state =
      min 100 (10 + 40 * min 1 ((c2_state.research_loop_count : ℚ) /
        (max 1 c2_state.total_steps : ℕ)) + 40 * c2_state.step_progress) :=
  web_research_progress_formula c2_state rfl

/-! ## C3 : source deduplication in `finalize_summary` -/

/-- Invariant of the deduplication loop: the output list has no
duplicates and every output element is in the seen set. -/
def dedup_inv (acc : List String × List String) : Prop :=
  acc.2.Nodup ∧ ∀ x ∈ acc.2, x ∈ acc.1

theorem dedup_line_step_inv (acc : List String × List String)
    (line : String) (h : dedup_inv acc) : dedup_inv (dedup_line_step acc line) := by
  obtain ⟨hnd, hsub⟩ := h
  unfold dedup_line_step
  split
  next hc =>
    simp only [Bool.and_eq_true, Bool.not_eq_true'] at hc
    have hseen : line ∉ acc.1 := by
      have := hc.2
      simpa using this
    refine ⟨?_, ?_⟩
    · rw [← List.concat_eq_append]
      exact List.Nodup.concat (fun hx => hseen (hsub line hx)) hnd
    · intro x hx
      rcases List.mem_append.1 hx with hx | hx
      · exact List.mem_cons_of_mem _ (hsub x hx)
      · simp only [List.mem_singleton] at hx
        exact hx ▸ List.mem_cons_self _ _
  next => exact ⟨hnd, hsub⟩

theorem dedup_line_foldl_inv (lines : List String)
    (acc : List String × List String) (h : dedup_inv acc) :
    dedup_inv (lines.foldl dedup_line_step acc) := by
  induction lines generalizing acc with
  | nil => exact h
  | cons l ls ih => exact ih _ (dedup_line_step_inv acc l h)

theorem dedup_step_inv (acc : List String × List String) (source : String)
    (h : dedup_inv acc) : dedup_inv (dedup_step acc source) := by
  obtain ⟨hnd, hsub⟩ := h
  unfold dedup_step
  split
  next hc =>
    simp only [Bool.and_eq_true, Bool.not_eq_true'] at hc
    have hseen : source ∉ acc.1 := by
      have := hc.2
      simpa using this
    refine ⟨?_, ?_⟩
    · rw [← List.concat_eq_append]
      exact List.Nodup.concat (fun hx => hseen (hsub source hx)) hnd
    · intro x hx
      rcases List.mem_append.1 hx with hx | hx
      · exact List.mem_cons_of_mem _ (hsub x hx)
      · simp only [List.mem_singleton] at hx
        exact hx ▸ List.mem_cons_self _ _
  next => exact dedup_line_foldl_inv _ _ ⟨hnd, hsub⟩

theorem dedup_foldl_inv (sources : List String)
    (acc : List String × List String) (h : dedup_inv acc) :
    dedup_inv (sources.foldl dedup_step acc) := by
  induction sources generalizing acc with
  | nil => exact h
  | cons s ss ih => exact ih _ (dedup_step_inv acc s h)

/-- The deduplicated source list never contains a duplicate. -/
theorem dedup_sources_nodup (sources : List String) :
    (dedup_sources sources).Nodup :=
  (dedup_foldl_inv sources ([], []) ⟨List.nodup_nil, by simp⟩).1

/-- Where an output element of the deduplication may come from: either
it is an input item kept whole (and starts with `http`), or it is a
non-blank line of some input item. -/
def source_piece (sources : List String) (x : String) : Prop :=
  (x ∈ sources ∧ py_startswith x "http" = true) ∨
  ∃ src ∈ sources, x ∈ py_split_lines src ∧ py_strip x ≠ ""

theorem mem_dedup_line_step (acc : List String × List String)
    (line x : String) (h : x ∈ (dedup_line_step acc line).2) :
    x ∈ acc.2 ∨ (x = line ∧ py_strip x ≠ "") := by
  unfold dedup_line_step at h
  split at h
  next hc =>
    simp only [Bool.and_eq_true, bne_iff_ne, ne_eq] at hc
    rcases List.mem_append.1 h with h | h
    · exact Or.inl h
    · simp only [List.mem_singleton] at h
      exact Or.inr ⟨h, h ▸ hc.1⟩
  next => exact Or.inl h

theorem mem_dedup_line_foldl (lines : List String)
    (acc : List String × List String) (x : String)
    (h : x ∈ (lines.foldl dedup_line_step acc).2) :
    x ∈ acc.2 ∨ (x ∈ lines ∧ py_strip x ≠ "") := by
  induction lines generalizing acc with
  | nil => exact Or.inl h
  | cons l ls ih =>
    rcases ih (dedup_line_step acc l) h with h2 | h2
    · rcases mem_dedup_line_step acc l x h2 with h3 | h3
      · exact Or.inl h3
      · exact Or.inr ⟨h3.1 ▸ List.mem_cons_self _ _, h3.2⟩
    · exact Or.inr ⟨List.mem_cons_of_mem _ h2.1, h2.2⟩

theorem mem_dedup_step (acc : List String × List String) (source x : String)
    (h : x ∈ (dedup_step acc source).2) :
    x ∈ acc.2 ∨ (x = source ∧ py_startswith x "http" = true) ∨
      (x ∈ py_split_lines source ∧ py_strip x ≠ "") := by
  unfold dedup_step at h
  split at h
  next hc =>
    simp only [Bool.and_eq_true] at hc
    rcases List.mem_append.1 h with h | h
    · exact Or.inl h
    · simp only [List.mem_singleton] at h
      exact Or.inr (Or.inl ⟨h, h ▸ hc.1⟩)
  next =>
    rcases mem_dedup_line_foldl _ acc x h with h2 | h2
    · exact Or.inl h2
    · exact Or.inr (Or.inr h2)

theorem mem_dedup_foldl (sources : List String)
    (acc : List String × List String) (x : String)
    (h : x ∈ (sources.foldl dedup_step acc).2) :
    x ∈ acc.2 ∨ source_piece sources x := by
  induction sources generalizing acc with
  | nil => exact Or.inl h
  | cons s ss ih =>
    rcases ih (dedup_step acc s) h with h2 | h2
    · rcases mem_dedup_step acc s x h2 with h3 | h3 | h3
      · exact Or.inl h3
      · exact Or.inr (Or.inl ⟨h3.1 ▸ List.mem_cons_self _ _, h3.2⟩)
      · exact Or.inr (Or.inr ⟨s, List.mem_cons_self _ _, h3⟩)
    · rcases h2 with h2 | ⟨src, hsrc, h2⟩
      · exact Or.inr (Or.inl ⟨List.mem_cons_of_mem _ h2.1, h2.2⟩)
      · exact Or.inr (Or.inr ⟨src, List.mem_cons_of_mem _ hsrc, h2⟩)

/-- Every deduplicated output element is an input item kept whole or a
non-blank line of an input item. -/
theorem dedup_sources_sound (sources : List String) (x : String)
    (h : x ∈ dedup_sources sources) : source_piece sources x := by
  rcases mem_dedup_foldl sources ([], []) x h with h2 | h2
  · simp at h2
  · exact h2

/-- Deduplication as the claim words it: an item starting with a URL
scheme is always treated atomically (kept whole and deduplicated as a
whole item), and only other items are split into lines. -/
def claimed_dedup_sources (sources : List String) : List String :=
  (sources.foldl
    (fun acc source =>
      if py_startswith source "http" then
        (if !(acc.1.contains source) then (source :: acc.1, acc.2 ++ [source])
         else acc)
      else (py_split_lines source).foldl dedup_line_step acc)
    ([], [])).2

/-- C3 as stated is false: a repeated item that starts with a URL
scheme is not kept whole by the code — the repeat falls into the
line-splitting branch (the `http` branch also requires the item to be
unseen), so its lines are emitted separately. -/
theorem finalize_dedup_claim_counterexample :
    dedup_sources ["http://a\nz", "http://a\nz"] =
      ["http://a\nz", "http://a", "z"] ∧
    claimed_dedup_sources ["http://a\nz", "http://a\nz"] = ["http://a\nz"] ∧
    dedup_sources ["http://a\nz", "http://a\nz"] ≠
      claimed_dedup_sources ["http://a\nz", "http://a\nz"] := by
  refine ⟨by decide, by decide, by decide⟩

/-- C3 amended: `finalize_summary` deduplicates `sources_gathered`
preserving first-seen order — an item that starts with `http` and has
not been seen whole is kept whole; any other item (including a repeated
`http` item) is split into lines, keeping each line with non-blank
strip that is not yet seen.  The output never contains a duplicate,
every output element is an input item kept whole or a non-blank line of
an input item, and on the claim's own input the result is exactly as
the claim states it. -/
theorem finalize_dedup_characterization :
    dedup_sources ["http://a", "http://a", "line1\nline2", "line1"] =
      ["http://a", "line1", "line2"] ∧
    (∀ sources : List String, (dedup_sources sources).Nodup) ∧
    (∀ sources : List String, ∀ x : String,
      x ∈ dedup_sources sources → source_piece sources x) :=
  ⟨by decide, dedup_sources_nodup, dedup_sources_sound⟩

/-- Witness for C3 (amended): the soundness conjunct applied at a
concrete input. -/
theorem finalize_dedup_characterization_witness :
    source_piece ["notes\nhttp://b"] "http://b" :=
  finalize_dedup_characterization.2.2 ["notes\nhttp://b"] "http://b" (by decide)

/-! ## Lemmas on the stable descending sort -/

theorem insert_by_desc_perm {α β : Type} [LinearOrder β] (key : α → β)
    (x : α) (l : List α) : List.Perm (insert_by_desc key x l) (x :: l) := by
  induction l with
  | nil => exact List.Perm.refl _
  | cons y ys ih =>
    unfold insert_by_desc
    split
    · exact (ih.cons y).trans (List.Perm.swap x y ys)
    · exact List.Perm.refl _

theorem sort_by_desc_perm {α β : Type} [LinearOrder β] (key : α → β)
    (l : List α) : List.Perm (sort_by_desc key l) l := by
  induction l with
  | nil => exact List.Perm.refl _
  | cons x xs ih =>
    exact (insert_by_desc_perm key x (sort_by_desc key xs)).trans (ih.cons x)

theorem insert_by_desc_pairwise {α β : Type} [LinearOrder β] (key : α → β)
    (x : α) (l : List α) (h : l.Pairwise (fun a b => key b ≤ key a)) :
    (insert_by_desc key x l).Pairwise (fun a b => key b ≤ key a) := by
  induction l with
  | nil => simp [insert_by_desc]
  | cons y ys ih =>
    rw [List.pairwise_cons] at h
    unfold insert_by_desc
    split
    next hlt =>
      rw [List.pairwise_cons]
      refine ⟨fun z hz => ?_, ih h.2⟩
      rcases List.mem_cons.1 ((insert_by_desc_perm key x ys).mem_iff.1 hz) with
        rfl | hz
      · exact le_of_lt hlt
      · exact h.1 z hz
    next hge =>
      rw [List.pairwise_cons]
      refine ⟨fun z hz => ?_, List.pairwise_cons.2 h⟩
      rcases List.mem_cons.1 hz with rfl | hz
      · exact le_of_not_lt hge
      · exact le_trans (h.1 z hz) (le_of_not_lt hge)

theorem sort_by_desc_pairwise {α β : Type} [LinearOrder β] (key : α → β)
    (l : List α) :
    (sort_by_desc key l).Pairwise (fun a b => key b ≤ key a) := by
  induction l with
  | nil => simp [sort_by_desc]
  | cons x xs ih => exact insert_by_desc_pairwise key x _ ih

theorem insert_by_desc_filter_eq {α β : Type} [LinearOrder β] (key : α → β)
    (x : α) (l : List α) (c : β) (hxc : key x = c) :
    (insert_by_desc key x l).filter (fun a => decide (key a = c)) =
      x :: l.filter (fun a => decide (key a = c)) := by
  induction l with
  | nil => simp [insert_by_desc, hxc]
  | cons y ys ih =>
    unfold insert_by_desc
    split
    next hlt =>
      have hy : ¬ (key y = c) := fun he =>
        absurd (hxc ▸ he ▸ hlt) (lt_irrefl _)
      rw [List.filter_cons_of_neg (by simp [hy]), ih,
        List.filter_cons_of_neg (by simp [hy])]
    next hge =>
      rw [List.filter_cons_of_pos (by simp [hxc])]

theorem insert_by_desc_filter_ne {α β : Type} [LinearOrder β] (key : α → β)
    (x : α) (l : List α) (c : β) (hxc : ¬ (key x = c)) :
    (insert_by_desc key x l).filter (fun a => decide (key a = c)) =
      l.filter (fun a => decide (key a = c)) := by
  induction l with
  | nil => simp [insert_by_desc, hxc]
  | cons y ys ih =>
    unfold insert_by_desc
    split
    next hlt =>
      rw [List.filter_cons, List.filter_cons, ih]
    next hge =>
      rw [List.filter_cons_of_neg (by simp [hxc])]

/-- Stability of the sort: the subsequence of entries with any fixed
key is unchanged, so equal-keyed entries keep their relative order. -/
theorem sort_by_desc_filter_stable {α β : Type} [LinearOrder β]
    (key : α → β) (l : List α) (c : β) :
    (sort_by_desc key l).filter (fun a => decide (key a = c)) =
      l.filter (fun a => decide (key a = c)) := by
  induction l with
  | nil => rfl
  | cons x xs ih =>
    unfold sort_by_desc
    by_cases h : key x = c
    · rw [insert_by_desc_filter_eq key x _ c h, ih,
        List.filter_cons_of_pos (by simp [h])]
    · rw [insert_by_desc_filter_ne key x _ c h, ih,
        List.filter_cons_of_neg (by simp [h])]

theorem filter_take_prefix {α : Type} (p : α → Bool) (n : Nat)
    (l : List α) : (l.take n).filter p <+: l.filter p := by
  induction l generalizing n with
  | nil => simp
  | cons a l ih =>
    cases n with
    | zero => simp [List.nil_prefix]
    | succ n =>
      rw [List.take_succ_cons, List.filter_cons, List.filter_cons]
      cases h : p a with
      | false => simpa [h] using ih n
      | true =>
        simp only [h, if_true]
        obtain ⟨t, ht⟩ := ih n
        exact ⟨t, by rw [List.cons_append, ht]⟩

/-! ## C4 : `search_similar` -/

theorem sim_fold_scores (cos : List ℚ → List ℚ → ℚ) (q : List ℚ) (thr : ℚ)
    (l : List SessionRow) (acc : List (ResearchSession × ℚ))
    (hacc : ∀ p ∈ acc, thr ≤ p.2) :
    ∀ p ∈ l.foldl (sim_step cos q thr) acc, thr ≤ p.2 := by
  induction l generalizing acc with
  | nil => exact hacc
  | cons r rs ih =>
    refine ih (sim_step cos q thr acc r) (fun p hp => ?_)
    simp only [sim_step] at hp
    split at hp
    next hsim =>
      rcases List.mem_append.1 hp with hp | hp
      · exact hacc p hp
      · simp only [List.mem_singleton] at hp
        exact hp ▸ hsim
    next => exact hacc p hp

theorem similarity_candidates_scores (cos : List ℚ → List ℚ → ℚ)
    (q : List ℚ) (db : List SessionRow) (thr : ℚ) :
    ∀ p ∈ similarity_candidates cos q db thr, thr ≤ p.2 :=
  sim_fold_scores cos q thr _ [] (by simp)

/-- C4 amended: `search_similar` returns only scores reaching the
threshold, sorted descending, at most `limit` of them; for any fixed
score the returned entries keep the scan order (the stable sort), the
scan order being `created_at` descending — not insertion order; and
when `limit` is not exceeded every candidate is returned. -/
theorem search_similar_contract (cos : List ℚ → List ℚ → ℚ)
    (emb : String → List ℚ) (db : List SessionRow) (query : String)
    (limit : Nat) (thr : ℚ) :
    (∀ p ∈ search_similar cos emb db query limit thr, thr ≤ p.2) ∧
    (search_similar cos emb db query limit thr).Pairwise
      (fun a b => b.2 ≤ a.2) ∧
    (search_similar cos emb db query limit thr).length ≤ limit ∧
    (∀ c : ℚ, (search_similar cos emb db query limit thr).filter
        (fun p => decide (p.2 = c)) <+:
      (similarity_candidates cos (emb query) db thr).filter
        (fun p => decide (p.2 = c))) ∧
    ((similarity_candidates cos (emb query) db thr).length ≤ limit →
      ∀ p ∈ similarity_candidates cos (emb query) db thr,
        p ∈ search_similar cos emb db query limit thr) := by
  refine ⟨?_, ?_, ?_, ?_, ?_⟩
  · intro p hp
    have hp2 : p ∈ sort_by_desc (fun p => p.2)
        (similarity_candidates cos (emb query) db thr) :=
      List.mem_of_mem_take hp
    have hp3 : p ∈ similarity_candidates cos (emb query) db thr :=
      (sort_by_desc_perm _ _).mem_iff.1 hp2
    exact similarity_candidates_scores cos (emb query) db thr p hp3
  · exact List.Pairwise.sublist (List.take_sublist _ _)
      (sort_by_desc_pairwise _ _)
  · simpa [search_similar] using List.length_take_le _ _
  · intro c
    have h1 := filter_take_prefix (fun p : ResearchSession × ℚ =>
      decide (p.2 = c)) limit
      (sort_by_desc (fun p => p.2)
        (similarity_candidates cos (emb query) db thr))
    rwa [sort_by_desc_filter_stable] at h1
  · intro hlen p hp
    have hslen : (sort_by_desc (fun p : ResearchSession × ℚ => p.2)
        (similarity_candidates cos (emb query) db thr)).length ≤ limit := by
      rwa [(sort_by_desc_perm _ _).length_eq]
    unfold search_similar
    rw [List.take_of_length_le hslen]
    exact (sort_by_desc_perm _ _).mem_iff.2 hp

/-- Two stored sessions with distinct creation times and equal
similarity scores, inserted in the order `A` then `B`. -/
def c4_row_A : SessionRow :=
  { id := "A", topic := "tA", summary := "", sources := [],
    created_at := 1, embedding := some [1] }

def c4_row_B : SessionRow :=
  { id := "B", topic := "tB", summary := "", sources := [],
    created_at := 2, embedding := some [1] }

/-- C4 as stated is false on the tie order: with equal scores the
results come back in `created_at` descending order (the scan order of
the `SELECT ... ORDER BY created_at DESC`), which is the reverse of the
insertion order. -/
theorem search_similar_tie_order_counterexample :
    ((search_similar (fun _ _ => 1) (fun _ => [1]) [c4_row_A, c4_row_B]
        "q" 5 0).map (fun p => p.1.id)) = ["B", "A"] ∧
    ((search_similar (fun _ _ => 1) (fun _ => [1]) [c4_row_A, c4_row_B]
        "q" 5 0).map (fun p => p.1.id)) ≠ ["A", "B"] := by
  refine ⟨by decide, by decide⟩

/-- Witness for C4 (amended) at a concrete store. -/
theorem search_similar_contract_witness :
    ((similarity_candidates (fun _ _ => 1) [1] [c4_row_A, c4_row_B]
        0).length ≤ 5 → ∀ p ∈ similarity_candidates (fun _ _ => 1) [1]
        [c4_row_A, c4_row_B] 0,
      p ∈ search_similar (fun _ _ => 1) (fun _ => [1]) [c4_row_A, c4_row_B]
        "q" 5 0) ∧
    (search_similar (fun _ _ => 1) (fun _ => [1]) [c4_row_A, c4_row_B]
      "q" 5 0).length ≤ 5 :=
  ⟨(search_similar_contract (fun _ _ => 1) (fun _ => [1]) [c4_row_A, c4_row_B]
      "q" 5 0).2.2.2.2,
   (search_similar_contract (fun _ _ => 1) (fun _ => [1]) [c4_row_A, c4_row_B]
      "q" 5 0).2.2.1⟩

/-! ## C5 : `add_session` / `get_session` round trip -/

/-- C5 amended: reading a session back after `add_session` preserves
every field except `embedding`, which is always `None` — the `SELECT`
of `get_session` omits the `embedding` column — and an empty (falsy)
`config` dict, which is normalised to `None` on insert. -/
theorem add_get_round_trip (embed : String → List ℚ)
    (db : List SessionRow) (s : ResearchSession) :
    get_session (add_session embed db s).1 s.id =
      some { s with
        embedding := none
        config := py_config_store s.config } := by
  unfold get_session add_session
  have hnone : (db.filter (fun r => r.id ≠ s.id)).find?
      (fun r => r.id = s.id) = none := by
    rw [List.find?_eq_none]
    intro r hr
    have := (List.mem_filter.1 hr).2
    simpa using this
  rw [List.find?_append, hnone, Option.none_or]
  simp [row_to_session]

/-- A session carrying both an embedding and an empty config dict. -/
def c5_session : ResearchSession :=
  { id := "s1", topic := "t", summary := "sum", sources := ["x"],
    created_at := 3, completed_at := some 4, config := some [],
    embedding := some [1] }

/-- C5 as stated is false: the session read back is not field-for-field
equal to the stored one — its `embedding` is `None` (and an empty
`config` dict came back as `None`). -/
theorem session_round_trip_counterexample :
    get_session (add_session (fun _ => [2]) [] c5_session).1 c5_session.id ≠
      some c5_session ∧
    get_session (add_session (fun _ => [2]) [] c5_session).1 c5_session.id =
      some { c5_session with embedding := none, config := none } := by
  refine ⟨by decide, by decide⟩

/-! ## C6 : `cleanup_old_sessions` -/

/-- In a list sorted descending by key, an element of the first `k`
entries has fewer than `k` entries with a strictly larger key. -/
theorem sorted_take_few_greater {α : Type} (key : α → Int)
    (S : List α) (hS : S.Pairwise (fun a b => key b ≤ key a)) :
    ∀ (k : Nat) (r : α), r ∈ S.take k →
      (S.filter (fun x => decide (key r < key x))).length < k := by
  induction S with
  | nil => intro k r hr; simp at hr
  | cons y T ih =>
    intro k r hr
    rw [List.pairwise_cons] at hS
    cases k with
    | zero => simp at hr
    | succ k =>
      rw [List.take_succ_cons] at hr
      rcases List.mem_cons.1 hr with rfl | hr
      · have hnil : (r :: T).filter (fun x => decide (key r < key x)) = [] := by
          rw [List.filter_eq_nil_iff]
          intro a ha
          rcases List.mem_cons.1 ha with rfl | ha
          · simp
          · simp only [decide_eq_true_eq]
            exact fun hlt => absurd (hS.1 a ha) (not_le.2 hlt)
        rw [hnil]
        simpa using Nat.succ_pos k
      · have ihr := ih hS.2 k r hr
        rw [List.filter_cons]
        by_cases hy : key r < key y
        · rw [if_pos (by simpa using hy)]
          simpa using Nat.succ_lt_succ ihr
        · rw [if_neg (by simpa using hy)]
          exact Nat.lt_succ_of_lt ihr

/-- C6: with pairwise-distinct ids (the primary key) and more than
`keep_recent` rows, `cleanup_old_sessions` leaves exactly `keep_recent`
rows, returns the number of deleted rows, and every surviving row has
fewer than `keep_recent` rows created strictly later than it (it is
among the `keep_recent` most recently created). -/
theorem cleanup_retention (db : List SessionRow) (k : Nat)
    (hids : (db.map (fun r => r.id)).Nodup) (hk : k < db.length) :
    (cleanup_old_sessions db k).1.length = k ∧
    (cleanup_old_sessions db k).2 = db.length - k ∧
    (∀ r ∈ (cleanup_old_sessions db k).1, r ∈ db ∧
      (db.filter (fun r2 => decide (r.created_at < r2.created_at))).length
        < k) := by
  have hperm : List.Perm (sort_by_desc (fun r : SessionRow => r.created_at) db)
      db := sort_by_desc_perm _ _
  set S := sort_by_desc (fun r : SessionRow => r.created_at) db with hSdef
  have hSlen : S.length = db.length := hperm.length_eq
  have hSids : (S.map (fun r => r.id)).Nodup :=
    (List.Perm.nodup_iff (hperm.map (fun r => r.id))).2 hids
  have hsplit : S.take k ++ S.drop k = S := List.take_append_drop k S
  have hKlen : (S.take k).length = k := by
    rw [List.length_take]
    omega
  have hpred : ∀ r ∈ S.take k,
      (((S.take k).map (fun r => r.id)).contains r.id) = true := by
    intro r hr
    simp only [List.contains_iff_exists_mem_beq]
    exact ⟨r.id, List.mem_map_of_mem _ hr, by simp⟩
  have hdrop : ∀ r ∈ S.drop k,
      (((S.take k).map (fun r => r.id)).contains r.id) = false := by
    intro r hr
    rw [← hsplit, List.map_append, List.nodup_append] at hSids
    by_contra hcon
    rw [Bool.not_eq_false, List.contains_iff_exists_mem_beq] at hcon
    obtain ⟨b, hb, hbeq⟩ := hcon
    have hb2 : r.id ∈ (S.drop k).map (fun r => r.id) :=
      List.mem_map_of_mem _ hr
    exact hSids.2.2 (beq_iff_eq.1 hbeq ▸ hb) hb2
  have hfilterS : S.filter
      (fun r => ((S.take k).map (fun r => r.id)).contains r.id) = S.take k := by
    have hstep : (S.take k ++ S.drop k).filter
        (fun r => ((S.take k).map (fun r => r.id)).contains r.id) = S.take k := by
      rw [List.filter_append, List.filter_eq_self.2 hpred,
        List.filter_eq_nil_iff.2 (fun a ha => by rw [hdrop a ha]; simp),
        List.append_nil]
    rwa [hsplit] at hstep
  have hremlen : (cleanup_old_sessions db k).1.length = k := by
    unfold cleanup_old_sessions
    have hpf : List.Perm
        (db.filter (fun r => ((S.take k).map (fun r => r.id)).contains r.id))
        (S.filter (fun r => ((S.take k).map (fun r => r.id)).contains r.id)) :=
      (hperm.symm).filter _
    simp only [← hSdef]
    rw [hpf.length_eq, hfilterS, hKlen]
  refine ⟨hremlen, ?_, ?_⟩
  · unfold cleanup_old_sessions at hremlen ⊢
    simp only [← hSdef] at hremlen ⊢
    rw [hremlen]
  · intro r hr
    unfold cleanup_old_sessions at hr
    simp only [← hSdef] at hr
    have hrdb : r ∈ db := (List.mem_filter.1 hr).1
    have hrid : (((S.take k).map (fun r => r.id)).contains r.id) = true :=
      (List.mem_filter.1 hr).2
    refine ⟨hrdb, ?_⟩
    rw [List.contains_iff_exists_mem_beq] at hrid
    obtain ⟨b, hb, hbeq⟩ := hrid
    obtain ⟨q, hqK, hqid⟩ := List.mem_map.1 hb
    have hqS : q ∈ S := List.mem_of_mem_take hqK
    have hqdb : q ∈ db := hperm.mem_iff.1 hqS
    have hqr : q = r := by
      have hinj := List.inj_on_of_nodup_map hids
      exact hinj hqdb hrdb (by rw [hqid, beq_iff_eq.1 hbeq])
    have hrK : r ∈ S.take k := by rw [← hqr]; exact hqK
    have hfew := sorted_take_few_greater (fun r : SessionRow => r.created_at)
      S (sort_by_desc_pairwise _ _) k r hrK
    have hpf : List.Perm
        (S.filter (fun x => decide (r.created_at < x.created_at)))
        (db.filter (fun x => decide (r.created_at < x.created_at))) :=
      hperm.filter _
    rwa [hpf.length_eq] at hfew

/-- Three rows with distinct ids and creation times for the C6
witness. -/
def c6_db : List SessionRow :=
  [{ id := "a", topic := "", summary := "", sources := [], created_at := 1 },
   { id := "b", topic := "", summary := "", sources := [], created_at := 2 },
   { id := "c", topic := "", summary := "", sources := [], created_at := 3 }]

/-- Witness for C6 on a three-row store with `keep_recent = 2`. -/
theorem cleanup_retention_witness :
    (cleanup_old_sessions c6_db 2).1.length = 2 ∧
    (cleanup_old_sessions c6_db 2).2 = 1 := by
  have h := cleanup_retention c6_db 2 (by decide) (by decide)
  refine ⟨h.1, ?_⟩
  rw [h.2.1]
  decide

/-! ## Pipeline lemmas -/

theorem dictGet_dictInsert_self (d : StrDict) (kv : String × String) :
    dictGet (dictInsert d kv) kv.1 = some kv.2 := by
  induction d with
  | nil => simp [dictInsert, dictGet, List.find?]
  | cons hd rest ih =>
    obtain ⟨k, v⟩ := hd
    unfold dictInsert
    by_cases hk : k = kv.1
    · rw [if_pos hk]
      simp [dictGet, List.find?, hk]
    · rw [if_neg hk]
      simpa [dictGet, List.find?, hk] using ih

theorem node_result_error {d : Type} (state : ResearchState)
    (pre : String) (body : Except PyErr (ResearchState × d))
    (st' : ResearchState) (e : PyErr)
    (h : node_result state pre body = (st', .error e)) :
    st'.current_step = "error" ∧ st'.error_message.isSome := by
  unfold node_result at h
  cases hb : body with
  | ok sd => rw [hb] at h; simp at h
  | error e2 =>
    rw [hb] at h
    simp only [Prod.mk.injEq] at h
    rw [← h.1]
    simp

theorem node_result_ok {d : Type} (state : ResearchState)
    (pre : String) (body : Except PyErr (ResearchState × d))
    (st' : ResearchState) (dl : d)
    (h : node_result state pre body = (st', .ok dl)) :
    body = .ok (st', dl) := by
  unfold node_result at h
  cases hb : body with
  | error e2 => rw [hb] at h; simp at h
  | ok sd =>
    rw [hb] at h
    simp only [Prod.mk.injEq, Except.ok.injEq] at h
    rw [show sd = (st', dl) from Prod.ext h.1 h.2]

theorem generate_query_body_ok_loop (env : Env) (caps : Caps)
    (cfg : ResearchConfig) (st st' : ResearchState) (q : String)
    (h : generate_query_body env caps cfg st = .ok (st', q)) :
    st'.research_loop_count = st.research_loop_count := by
  unfold generate_query_body at h
  split at h
  · simp at h
  next content heq =>
    split at h
    · simp only [gen_finish, Prod.mk.injEq, Except.ok.injEq] at h
      rw [← h.1]
      simp
    next fields heq2 =>
      split at h <;>
        · simp only [gen_finish, Prod.mk.injEq, Except.ok.injEq] at h
          rw [← h.1]
          simp
    next => simp at h

theorem web_research_body_ok (env : Env) (caps : Caps)
    (cfg : ResearchConfig) (st st' : ResearchState) (d : WebResearchDelta)
    (h : web_research_body env caps cfg st = .ok (st', d)) :
    st'.research_loop_count = st.research_loop_count ∧
    d.research_loop_count = st.research_loop_count + 1 := by
  unfold web_research_body at h
  split at h
  next e heq => simp at h
  next sr heq =>
    simp only [Except.ok.injEq, Prod.mk.injEq] at h
    refine ⟨?_, ?_⟩
    · rw [← h.1]; simp
    · rw [← h.2]

theorem summarize_sources_body_ok_loop (env : Env) (caps : Caps)
    (cfg : ResearchConfig) (st st' : ResearchState) (q : String)
    (h : summarize_sources_body env caps cfg st = .ok (st', q)) :
    st'.research_loop_count = st.research_loop_count := by
  unfold summarize_sources_body at h
  split at h
  · simp at h
  next recent heq =>
    split at h
    next e heq2 => simp at h
    next content heq2 =>
      simp only [summarize_finish, Prod.mk.injEq, Except.ok.injEq] at h
      rw [← h.1]
      simp

theorem reflect_on_summary_body_ok_loop (env : Env) (caps : Caps)
    (cfg : ResearchConfig) (st st' : ResearchState) (q : String)
    (h : reflect_on_summary_body env caps cfg st = .ok (st', q)) :
    st'.research_loop_count = st.research_loop_count := by
  unfold reflect_on_summary_body at h
  split at h
  next e heq => simp at h
  next content heq =>
    split at h <;>
      first
      | (split at h <;>
          first
          | (split at h <;>
              · simp only [reflect_finish, Prod.mk.injEq, Except.ok.injEq] at h
                rw [← h.1]
                simp)
          | (simp only [reflect_finish, Prod.mk.injEq, Except.ok.injEq] at h
             rw [← h.1]
             simp))
      | (simp only [reflect_finish, Prod.mk.injEq, Except.ok.injEq] at h
         rw [← h.1]
         simp)

theorem generate_query_node_ok_loop (env : Env) (caps : Caps)
    (cfg : ResearchConfig) (st st' : ResearchState) (q : String)
    (h : generate_query_node env caps cfg st = (st', .ok q)) :
    st'.research_loop_count = st.research_loop_count := by
  unfold generate_query_node at h
  have hb := node_result_ok _ _ _ _ _ h
  have h2 := generate_query_body_ok_loop env caps cfg _ st' q hb
  simpa using h2

theorem web_research_node_ok (env : Env) (caps : Caps)
    (cfg : ResearchConfig) (st st' : ResearchState) (d : WebResearchDelta)
    (h : web_research_node env caps cfg st = (st', .ok d)) :
    st'.research_loop_count = st.research_loop_count ∧
    d.research_loop_count = st.research_loop_count + 1 := by
  unfold web_research_node at h
  have hb := node_result_ok _ _ _ _ _ h
  have h2 := web_research_body_ok env caps cfg _ st' d hb
  simpa using h2

theorem summarize_sources_node_ok_loop (env : Env) (caps : Caps)
    (cfg : ResearchConfig) (st st' : ResearchState) (q : String)
    (h : summarize_sources_node env caps cfg st = (st', .ok q)) :
    st'.research_loop_count = st.research_loop_count := by
  unfold summarize_sources_node at h
  have hb := node_result_ok _ _ _ _ _ h
  have h2 := summarize_sources_body_ok_loop env caps cfg _ st' q hb
  simpa using h2

theorem reflect_on_summary_node_ok_loop (env : Env) (caps : Caps)
    (cfg : ResearchConfig) (st st' : ResearchState) (q : String)
    (h : reflect_on_summary_node env caps cfg st = (st', .ok q)) :
    st'.research_loop_count = st.research_loop_count := by
  unfold reflect_on_summary_node at h
  have hb := node_result_ok _ _ _ _ _ h
  have h2 := reflect_on_summary_body_ok_loop env caps cfg _ st' q hb
  simpa using h2

theorem generate_query_node_error (env : Env) (caps : Caps)
    (cfg : ResearchConfig) (st st' : ResearchState) (e : PyErr)
    (h : generate_query_node env caps cfg st = (st', .error e)) :
    st'.current_step = "error" ∧ st'.error_message.isSome := by
  unfold generate_query_node at h
  exact node_result_error _ _ _ _ _ h

theorem web_research_node_error (env : Env) (caps : Caps)
    (cfg : ResearchConfig) (st st' : ResearchState) (e : PyErr)
    (h : web_research_node env caps cfg st = (st', .error e)) :
    st'.current_step = "error" ∧ st'.error_message.isSome := by
  unfold web_research_node at h
  exact node_result_error _ _ _ _ _ h

theorem summarize_sources_node_error (env : Env) (caps : Caps)
    (cfg : ResearchConfig) (st st' : ResearchState) (e : PyErr)
    (h : summarize_sources_node env caps cfg st = (st', .error e)) :
    st'.current_step = "error" ∧ st'.error_message.isSome := by
  unfold summarize_sources_node at h
  exact node_result_error _ _ _ _ _ h

theorem reflect_on_summary_node_error (env : Env) (caps : Caps)
    (cfg : ResearchConfig) (st st' : ResearchState) (e : PyErr)
    (h : reflect_on_summary_node env caps cfg st = (st', .error e)) :
    st'.current_step = "error" ∧ st'.error_message.isSome := by
  unfold reflect_on_summary_node at h
  exact node_result_error _ _ _ _ _ h

theorem finalize_summary_node_fields (env : Env) (caps : Caps)
    (cfg : ResearchConfig) (st : ResearchState) :
    (finalize_summary_node env caps cfg st).1.current_step = "completed" ∧
    (finalize_summary_node env caps cfg st).1.research_loop_count =
      st.research_loop_count ∧
    (∃ fs, (finalize_summary_node env caps cfg st).2 = .ok fs) :=
  ⟨rfl, rfl, ⟨_, rfl⟩⟩

theorem run_cycle_ok (env : Env) (caps : Caps) (cfg : ResearchConfig)
    (st : ResearchState) (p : Nat) (st' : ResearchState) (p' : Nat)
    (u : Unit) (h : run_cycle env caps cfg st p = (st', p', .ok u)) :
    st'.research_loop_count = st.research_loop_count + 1 ∧ p' = p + 1 := by
  unfold run_cycle at h
  split at h
  next st1 e heq => simp at h
  next st1 delta heq =>
    have hw := web_research_node_ok env caps cfg st st1 delta heq
    split at h
    next st2 e heq2 => simp at h
    next st2 sum heq2 =>
      have hs := summarize_sources_node_ok_loop env caps cfg _ st2 sum heq2
      split at h
      next st3 e heq3 => simp at h
      next st3 fq heq3 =>
        have hr := reflect_on_summary_node_ok_loop env caps cfg _ st3 fq heq3
        rw [Prod.mk.injEq] at h
        obtain ⟨h1, h2⟩ := h
        rw [Prod.mk.injEq] at h2
        refine ⟨?_, h2.1.symm⟩
        rw [← h1]
        show st3.research_loop_count = st.research_loop_count + 1
        rw [hr]
        show st2.research_loop_count = st.research_loop_count + 1
        rw [hs]
        rw [apply_web_delta_research_loop_count, hw.2]

theorem run_cycle_error_marked (env : Env) (caps : Caps)
    (cfg : ResearchConfig) (st : ResearchState) (p : Nat)
    (st' : ResearchState) (p' : Nat) (e : PyErr)
    (h : run_cycle env caps cfg st p = (st', p', .error e)) :
    st'.current_step = "error" ∧ st'.error_message.isSome := by
  unfold run_cycle at h
  split at h
  next st1 e1 heq =>
    rw [Prod.mk.injEq] at h
    obtain ⟨h1, h2⟩ := h
    rw [Prod.mk.injEq] at h2
    injection h2.2 with he
    rw [← h1]
    exact web_research_node_error env caps cfg st st1 e1 heq
  next st1 delta heq =>
    split at h
    next st2 e2 heq2 =>
      rw [Prod.mk.injEq] at h
      obtain ⟨h1, h2⟩ := h
      rw [← h1]
      exact summarize_sources_node_error env caps cfg _ st2 e2 heq2
    next st2 sum heq2 =>
      split at h
      next st3 e3 heq3 =>
        rw [Prod.mk.injEq] at h
        obtain ⟨h1, h2⟩ := h
        rw [← h1]
        exact reflect_on_summary_node_error env caps cfg _ st3 e3 heq3
      next st3 fq heq3 => simp at h

theorem run_loop_ok_counts (env : Env) (caps : Caps) (cfg : ResearchConfig)
    (fuel : Nat) :
    ∀ (st : ResearchState) (passes : Nat) (st' : ResearchState)
      (passes' : Nat) (u : Unit),
      run_loop env caps cfg fuel st passes = (st', passes', .ok u) →
      st.research_loop_count ≤ cfg.max_web_research_loops →
      st'.research_loop_count = cfg.max_web_research_loops + 1 ∧
      passes' = passes +
        (cfg.max_web_research_loops + 1 - st.research_loop_count) := by
  induction fuel with
  | zero =>
    intro st passes st' passes' u h hle
    simp [run_loop] at h
  | succ fuel ih =>
    intro st passes st' passes' u h hle
    unfold run_loop at h
    split at h
    next st1 p1 e heq => simp at h
    next st1 p1 u1 heq =>
      have hc := run_cycle_ok env caps cfg st passes st1 p1 u1 heq
      have e1 := hc.1
      have e2 := hc.2
      by_cases hroute : st1.research_loop_count ≤ cfg.max_web_research_loops
      · rw [show route_research cfg st1 = "web_research" from by
          unfold route_research; rw [if_pos hroute], if_pos rfl] at h
        have hrec := ih st1 p1 st' passes' u h hroute
        refine ⟨hrec.1, ?_⟩
        rw [hrec.2]
        omega
      · rw [show route_research cfg st1 = "finalize_summary" from by
          unfold route_research; rw [if_neg hroute],
          if_neg (by decide)] at h
        rcases hfin : finalize_summary_node env caps cfg st1 with ⟨sF, rF⟩
        rw [hfin] at h
        cases rF with
        | error e2 =>
          obtain ⟨fs, hfs⟩ := (finalize_summary_node_fields env caps cfg st1).2.2
          rw [hfin] at hfs
          simp at hfs
        | ok fs =>
          rw [Prod.mk.injEq] at h
          obtain ⟨h1, h2⟩ := h
          rw [Prod.mk.injEq] at h2
          have hloopF : sF.research_loop_count = st1.research_loop_count := by
            have h3 := (finalize_summary_node_fields env caps cfg st1).2.1
            rw [hfin] at h3
            exact h3
          constructor
          · rw [← h1]
            show sF.research_loop_count = cfg.max_web_research_loops + 1
            rw [hloopF]
            omega
          · rw [← h2.1]
            omega

theorem run_loop_error_marked (env : Env) (caps : Caps)
    (cfg : ResearchConfig) (fuel : Nat) :
    ∀ (st : ResearchState) (passes : Nat) (st' : ResearchState)
      (passes' : Nat) (e : PyErr),
      run_loop env caps cfg fuel st passes = (st', passes', .error e) →
      cfg.max_web_research_loops + 2 ≤ st.research_loop_count + fuel →
      st.research_loop_count ≤ cfg.max_web_research_loops + 1 →
      st'.current_step = "error" ∧ st'.error_message.isSome := by
  induction fuel with
  | zero =>
    intro st passes st' passes' e h hfuel hbound
    omega
  | succ fuel ih =>
    intro st passes st' passes' e h hfuel hbound
    unfold run_loop at h
    split at h
    next st1 p1 e1 heq =>
      rw [Prod.mk.injEq] at h
      obtain ⟨h1, h2⟩ := h
      rw [← h1]
      exact run_cycle_error_marked env caps cfg st passes st1 p1 e1 heq
    next st1 p1 u1 heq =>
      have hc := run_cycle_ok env caps cfg st passes st1 p1 u1 heq
      have e1 := hc.1
      by_cases hroute : st1.research_loop_count ≤ cfg.max_web_research_loops
      · rw [show route_research cfg st1 = "web_research" from by
          unfold route_research; rw [if_pos hroute], if_pos rfl] at h
        exact ih st1 p1 st' passes' e h (by omega) (by omega)
      · rw [show route_research cfg st1 = "finalize_summary" from by
          unfold route_research; rw [if_neg hroute],
          if_neg (by decide)] at h
        rcases hfin : finalize_summary_node env caps cfg st1 with ⟨sF, rF⟩
        rw [hfin] at h
        cases rF with
        | error e2 =>
          obtain ⟨fs, hfs⟩ := (finalize_summary_node_fields env caps cfg st1).2.2
          rw [hfin] at hfs
          simp at hfs
        | ok fs => simp at h

theorem run_loop_ok_completed (env : Env) (caps : Caps)
    (cfg : ResearchConfig) (fuel : Nat) :
    ∀ (st : ResearchState) (passes : Nat) (st' : ResearchState)
      (passes' : Nat) (u : Unit),
      run_loop env caps cfg fuel st passes = (st', passes', .ok u) →
      st'.current_step = "completed" := by
  induction fuel with
  | zero =>
    intro st passes st' passes' u h
    simp [run_loop] at h
  | succ fuel ih =>
    intro st passes st' passes' u h
    unfold run_loop at h
    split at h
    next st1 p1 e heq => simp at h
    next st1 p1 u1 heq =>
      by_cases hroute : st1.research_loop_count ≤ cfg.max_web_research_loops
      · rw [show route_research cfg st1 = "web_research" from by
          unfold route_research; rw [if_pos hroute], if_pos rfl] at h
        exact ih st1 p1 st' passes' u h
      · rw [show route_research cfg st1 = "finalize_summary" from by
          unfold route_research; rw [if_neg hroute],
          if_neg (by decide)] at h
        rcases hfin : finalize_summary_node env caps cfg st1 with ⟨sF, rF⟩
        rw [hfin] at h
        cases rF with
        | error e2 => simp at h
        | ok fs =>
          rw [Prod.mk.injEq] at h
          rw [← h.1]
          show sF.current_step = "completed"
          have h3 := (finalize_summary_node_fields env caps cfg st1).1
          rw [hfin] at h3
          exact h3

/-- A concrete environment for witnesses: `json.loads` always fails,
so generated queries take the documented fallback path. -/
def env_w : Env :=
  { current_date := "October 12, 2025"
    now := 1760227200
    query_writer_instructions := fun d t => "Write a query. " ++ d ++ " " ++ t
    summarizer_instructions := "Summarize."
    reflection_instructions := fun t => "Reflect on " ++ t
    strip_thinking_tokens := fun s => s
    deduplicate_and_format_sources := fun _ _ _ => "formatted results"
    json_loads := fun _ => none }

/-- Concrete capabilities whose calls all succeed. -/
def caps_w : Caps :=
  { llm_invoke := fun _ _ => .ok "model answer"
    tavily_search := fun _ _ _ =>
      .ok { results := some [{ url := some "http://example.com" }] }
    perplexity_search := fun _ _ => .ok { results := none }
    duckduckgo_search := fun _ _ _ =>
      .ok { results := some [{ url := some "http://example.com" }] }
    searxng_search := fun _ _ _ => .ok { results := none } }

/-- Capabilities whose LLM is unreachable. -/
def caps_fail : Caps :=
  { caps_w with llm_invoke := fun _ _ => .error (.exception "connection refused") }

def cfg_w : ResearchConfig := { max_web_research_loops := 1 }

/-! ## C1 : the off-by-one loop count -/

/-- C1: for `max_web_research_loops = n ≥ 1`, a successful
`graph.invoke` performs exactly `n + 1` web-research passes (the
router continues to `web_research` while `loop_count ≤ n` and
`loop_count` is incremented inside each pass), and the final graph
state has `research_loop_count = n + 1`. -/
theorem research_loop_off_by_one (env : Env) (caps : Caps)
    (cfg : ResearchConfig) (topic : String) (st : ResearchState)
    (passes : Nat) (u : Unit)
    (hmax : 1 ≤ cfg.max_web_research_loops)
    (h : invoke_graph env caps cfg topic = (st, passes, .ok u)) :
    passes = cfg.max_web_research_loops + 1 ∧
    st.research_loop_count = cfg.max_web_research_loops + 1 := by
  unfold invoke_graph at h
  split at h
  next st0 e heq => simp at h
  next st0 q heq =>
    have hg := generate_query_node_ok_loop env caps cfg _ st0 q heq
    have hz : ({ st0 with search_query := some q } :
        ResearchState).research_loop_count = 0 := hg
    have hcounts := run_loop_ok_counts env caps cfg
      (cfg.max_web_research_loops + 2) _ 0 st passes u h
      (by rw [hz]; exact Nat.zero_le _)
    rw [hz] at hcounts
    refine ⟨?_, hcounts.1⟩
    rw [hcounts.2]
    omega

/-- Witness for C1: with `max_web_research_loops = 1` a successful run
makes 2 web-research passes and ends with `research_loop_count = 2`. -/
theorem research_loop_off_by_one_witness :
    (invoke_graph env_w caps_w cfg_w "ocean currents").2.1 =
      cfg_w.max_web_research_loops + 1 ∧
    (invoke_graph env_w caps_w cfg_w "ocean currents").1.research_loop_count =
      cfg_w.max_web_research_loops + 1 :=
  research_loop_off_by_one env_w caps_w cfg_w "ocean currents"
    (invoke_graph env_w caps_w cfg_w "ocean currents").1
    (invoke_graph env_w caps_w cfg_w "ocean currents").2.1 ()
    (by decide) rfl

/-! ## C7 : error propagation -/

/-- C7: when the pipeline raises, the state it leaves behind has
`current_step = error` with an error message recorded (the executors
call `mark_error` and re-raise), and in every terminal state
`current_step = error` implies `error_message` is set. -/
theorem pipeline_error_contract (env : Env) (caps : Caps)
    (cfg : ResearchConfig) (topic : String) (st : ResearchState)
    (passes : Nat) (res : Except PyErr Unit)
    (h : invoke_graph env caps cfg topic = (st, passes, res)) :
    ((∃ e, res = .error e) → st.current_step = "error" ∧
      st.error_message.isSome) ∧
    (st.current_step = "error" → st.error_message.isSome) := by
  unfold invoke_graph at h
  split at h
  next st0 e heq =>
    rw [Prod.mk.injEq] at h
    obtain ⟨h1, h2⟩ := h
    have hmark := generate_query_node_error env caps cfg _ st0 e heq
    rw [← h1]
    exact ⟨fun _ => hmark, fun _ => hmark.2⟩
  next st0 q heq =>
    cases res with
    | ok u =>
      have hdone := run_loop_ok_completed env caps cfg _ _ _ _ _ _ h
      refine ⟨fun he => ?_, fun he => ?_⟩
      · obtain ⟨e, he⟩ := he
        simp at he
      · rw [hdone] at he
        exact absurd he (by decide)
    | error e =>
      have hg := generate_query_node_ok_loop env caps cfg _ st0 q heq
      have hz : ({ st0 with search_query := some q } :
          ResearchState).research_loop_count = 0 := hg
      have hmark := run_loop_error_marked env caps cfg
        (cfg.max_web_research_loops + 2) _ 0 st passes e h
        (by rw [hz]; omega) (by rw [hz]; omega)
      exact ⟨fun _ => hmark, fun _ => hmark.2⟩

/-- Witness for C7: a failing LLM capability leaves the graph state
marked `error` with a message. -/
theorem pipeline_error_contract_witness :
    (invoke_graph env_w caps_fail cfg_w "t").1.current_step = "error" ∧
    ((invoke_graph env_w caps_fail cfg_w "t").1.error_message).isSome :=
  (pipeline_error_contract env_w caps_fail cfg_w "t"
    (invoke_graph env_w caps_fail cfg_w "t").1
    (invoke_graph env_w caps_fail cfg_w "t").2.1
    (invoke_graph env_w caps_fail cfg_w "t").2.2 rfl).1
    ⟨.exception "connection refused", rfl⟩

/-! ## C8 : JSON-parse fallback in `generate_query` -/

/-- C8 amended: when the generation capability returns text that is not
valid JSON, or a JSON object without the `query` key, `generate_query`
does not raise — it falls back to the raw (thinking-token-stripped
when so configured) text as the query, with the default rationale
`Generated query`; valid non-object JSON instead raises an uncaught
`TypeError` (see the counterexample). -/
theorem generate_query_parse_fallback (env : Env) (caps : Caps)
    (cfg : ResearchConfig) (st : ResearchState) (content : String)
    (hinv : caps.llm_invoke
      [("system", env.query_writer_instructions env.current_date
          (pyStr st.research_topic)),
       ("human", "Generate a query for web search:")] true = .ok content)
    (hparse : env.json_loads content = none ∨
      ∃ fields, env.json_loads content = some (JValue.obj fields) ∧
        fields.find? (fun kv => kv.1 = "query") = none) :
    (generate_query_node env caps cfg st).2 =
      .ok (if cfg.strip_thinking_tokens then env.strip_thinking_tokens content
           else content) ∧
    dictGet (generate_query_node env caps cfg st).1.step_details
      "rationale" = some "Generated query" := by
  have hbody : generate_query_body env caps cfg
      (update_step st "generate_query" (1/10)
        [("status", "Generating search query...")]) =
      .ok (gen_finish (update_step st "generate_query" (1/10)
        [("status", "Generating search query...")])
        (gen_fallback env cfg content)) := by
    unfold generate_query_body
    rw [show (update_step st "generate_query" (1/10)
      [("status", "Generating search query...")]).research_topic
        = st.research_topic from rfl, hinv]
    dsimp only
    rcases hparse with hp | ⟨fields, hp, hq⟩
    · rw [hp]
    · rw [hp]
      dsimp only
      rw [hq]
  have hnode : generate_query_node env caps cfg st =
      ((gen_finish (update_step st "generate_query" (1/10)
          [("status", "Generating search query...")])
          (gen_fallback env cfg content)).1,
       .ok (gen_fallback env cfg content).1) := by
    unfold generate_query_node node_result
    dsimp only
    rw [hbody]
    rfl
  rw [hnode]
  refine ⟨rfl, ?_⟩
  show dictGet (update_step _ "generate_query" 1
    [("status", "Query generated successfully"),
     ("query", (gen_fallback env cfg content).1),
     ("rationale", "Generated query")]).step_details "rationale" =
    some "Generated query"
  simp only [update_step]
  rw [if_neg (by simp)]
  simp only [dictUpdate, List.foldl]
  exact dictGet_dictInsert_self _ ("rationale", "Generated query")

/-- Witness for C8 (amended): unparsable model output falls back to the
raw text with the default rationale. -/
theorem generate_query_parse_fallback_witness :
    (generate_query_node env_w caps_w cfg_w {}).2 = .ok "model answer" ∧
    dictGet (generate_query_node env_w caps_w cfg_w {}).1.step_details
      "rationale" = some "Generated query" := by
  have h := generate_query_parse_fallback env_w caps_w cfg_w {}
    "model answer" rfl (Or.inl rfl)
  exact ⟨h.1, h.2⟩

/-- An environment whose model answer parses as a JSON list: valid
JSON without a `query` key. -/
def env_c8 : Env :=
  { env_w with json_loads := fun _ => some (JValue.arr [JValue.num 1, JValue.num 2]) }

def caps_c8 : Caps :=
  { caps_w with llm_invoke := fun _ _ => .ok "[1, 2]" }

/-- C8 as stated is false: valid JSON that is not an object (here a
list) also lacks the `query` key, but subscripting it raises an
uncaught `TypeError`, so the step marks the error state and re-raises
instead of falling back. -/
theorem generate_query_parse_counterexample :
    (generate_query_node env_c8 caps_c8 cfg_w {}).2 =
      .error PyErr.typeError ∧
    (generate_query_node env_c8 caps_c8 cfg_w {}).1.current_step =
      "error" ∧
    ((generate_query_node env_c8 caps_c8 cfg_w {}).1.error_message).isSome :=
  ⟨rfl, rfl, rfl⟩

/-! ## C10 : `run_research` returns a fresh state -/

/-- C10: the state returned by a successful `run_research` still has
`research_loop_count = 0` and empty `web_research_results` and
`sources_gathered` (and no `search_query`): only `running_summary`
(defaulting to the empty string) is copied out of the graph result,
together with the completion metadata. -/
theorem run_research_fresh_state (env : Env) (caps : Caps)
    (cfg : ResearchConfig) (topic session_id : String) (started : Int)
    (st : ResearchState) (r : Unit)
    (h : run_research env caps cfg topic session_id started = (st, .ok r)) :
    st.research_loop_count = 0 ∧ st.web_research_results = [] ∧
    st.sources_gathered = [] ∧ st.current_step = "completed" ∧
    st.search_query = none ∧
    ∃ gs passes u, invoke_graph env caps cfg topic = (gs, passes, .ok u) ∧
      st.running_summary = some (gs.running_summary.getD "") := by
  unfold run_research at h
  split at h
  next result passes u heq =>
    rw [Prod.mk.injEq] at h
    obtain ⟨h1, h2⟩ := h
    rw [← h1]
    exact ⟨rfl, rfl, rfl, rfl, rfl, result, passes, u, heq, rfl⟩
  next => simp at h

/-- Witness for C10 on a concrete successful run. -/
theorem run_research_fresh_state_witness :
    (run_research env_w caps_w cfg_w "t" "sid" 5).1.research_loop_count = 0 ∧
    (run_research env_w caps_w cfg_w "t" "sid" 5).1.web_research_results = [] ∧
    (run_research env_w caps_w cfg_w "t" "sid" 5).1.sources_gathered = [] ∧
    (run_research env_w caps_w cfg_w "t" "sid" 5).1.current_step =
      "completed" := by
  have h := run_research_fresh_state env_w caps_w cfg_w "t" "sid" 5
    (run_research env_w caps_w cfg_w "t" "sid" 5).1 () rfl
  exact ⟨h.1, h.2.1, h.2.2.1, h.2.2.2.1⟩

end LocalResearchAgent
